import Mathlib

/-!
# Verification of the birdbox GPIO core (src/features/gpio)

Shallow embedding of the GPIO Pin Manager (`manager.py`), the Hardware
Adapter (`hardware.py`) and the mock driver (`mock_gpio.py`), together with
proofs settling the frozen claims about them.

Conventions of the embedding:
* Python dictionaries become insertion-ordered association lists
  (`List (Nat × α)`); setting an existing key keeps its position, setting a
  new key appends, exactly as CPython dicts behave.
* Python exceptions become `Except GPIOError`; an operation that mutates
  state before raising returns the mutated state alongside the error,
  because Python does not roll back on raise.
* Callbacks are opaque user code: a callback is represented by the identity
  of its function object (`id`) plus a flag saying whether invoking it
  raises.  Invocations are recorded in an event trace; the manager's
  `try/except` wrappers mean a raising callback only affects the trace's
  interpretation, never control flow.
* The trace (`Event`) also records adapter calls and the manager's output
  cache update, so ordering claims (cache-update happens-before dispatch,
  "no adapter read") are visible as list order.
-/

namespace Birdbox

/-! ## Constants (`constants.py` / `mock_gpio.py`) -/

/-- `HIGH = 1` -/
def HIGH : Int := 1
/-- `LOW = 0` -/
def LOW : Int := 0
/-- `UNDEFINED = -1` -/
def UNDEFINED : Int := -1
/-- `IN = 1` (pin mode) -/
def IN : Nat := 1
/-- `OUT = 0` (pin mode) -/
def OUT : Nat := 0
/-- `PUD_OFF = 20` -/
def PUD_OFF : Nat := 20
/-- `PUD_UP = 22` -/
def PUD_UP : Nat := 22
/-- `PUD_DOWN = 21` -/
def PUD_DOWN : Nat := 21
/-- `BOTH = 33` (edge constant) -/
def BOTH : Nat := 33

/-- Python exceptions raised by the GPIO code, distinguished by their
meaning (the comments give the concrete Python exception and message). -/
inductive GPIOError
  /-- `RuntimeError("Pin {pin} is not configured")` -/
  | notConfigured
  /-- `ValueError("Pin {pin} is not configured as input or output")` -/
  | notInputOutput
  /-- `ValueError("Pin {pin} is not configured as output")` -/
  | notOutput
  /-- `RuntimeError("Pin {pin} is already configured as ...")` -/
  | alreadyConfigured
  /-- `RuntimeError` wrapping an adapter/hardware failure
      (`"Failed to set pin state: ..."`, `"Hardware configuration failed: ..."`). -/
  | hardwareError
  /-- `ValueError` for a bad argument value (bad pin number, bad state,
      bad pull-up/down value, callback/edge-detection pairing). -/
  | invalidArgument
  /-- `RuntimeError("No valid pins found")` from pin discovery. -/
  | noValidPins
  /-- Python `KeyError` from an unchecked dict subscript. -/
  | keyError
  /-- Python `TypeError` (e.g. calling a method with an unexpected
      keyword argument). -/
  | typeError
  /-- Any other `RuntimeError` (e.g. `"Cleanup failed: ..."`,
      `"Hardware cleanup failed: ..."`, driver-level errors). -/
  | runtimeError
deriving DecidableEq, Repr

/-- Observable events, in program order. -/
inductive Event
  /-- A user `on_change` callback was invoked with `(pin, state)`. -/
  | onChange (cbId : Nat) (pin : Nat) (state : Int)
  /-- A user `on_clear` callback was invoked with `(pin, state)`. -/
  | onClear (cbId : Nat) (pin : Nat) (state : Int)
  /-- `GPIOHardware.setup_input_pin(pin, edge_detection=…, callback=…)`
      was called; records whether edge detection was requested and whether
      a callback argument was supplied. -/
  | hwSetupInput (pin : Nat) (edgeDetection : Bool) (callbackSupplied : Bool)
  /-- `GPIOHardware.setup_output_pin(pin, initial_state=…)` was called. -/
  | hwSetupOutput (pin : Nat) (initialState : Int)
  /-- `GPIOHardware.set_output_state(pin, state)` was called (adapter write). -/
  | hwWrite (pin : Nat) (state : Int)
  /-- `GPIOHardware.get_pin_state(pin)` was called (adapter read). -/
  | hwRead (pin : Nat)
  /-- `GPIOHardware.cleanup()` was called (adapter teardown). -/
  | hwTeardown
  /-- The manager assigned `self._output_pin_states[pin] = state`. -/
  | cacheUpdate (pin : Nat) (state : Int)
deriving DecidableEq, Repr

/-! ## Association lists standing for Python dicts -/

/-- `d.get(k)` / `d[k]` read: the binding for `k` (a dict holds at most
one binding per key). -/
def alGet {α : Type} : List (Nat × α) → Nat → Option α
  | [], _ => none
  | a :: t, k => if a.1 = k then some a.2 else alGet t k

/-- `d[k] = v`: update in place when the key exists (CPython keeps the
insertion position), append otherwise. -/
def alSet {α : Type} : List (Nat × α) → Nat → α → List (Nat × α)
  | [], k, v => [(k, v)]
  | a :: t, k, v => if a.1 = k then (k, v) :: t else a :: alSet t k v

/-- `d.pop(k, None)` / `del d[k]`: drop the binding for `k`. -/
def alErase {α : Type} (l : List (Nat × α)) (k : Nat) : List (Nat × α) :=
  l.filter (fun p => p.1 ≠ k)

/-- `k in d` -/
def alContains {α : Type} (l : List (Nat × α)) (k : Nat) : Bool :=
  (alGet l k).isSome

/-! ## Mock driver (`mock_gpio.py`) -/

/-- `_MockPin`: per-channel state of the mock driver.  `eventCallbacks`
counts the callbacks appended by `add_event_detect` (the callbacks
themselves are manager-created wrappers; only their presence matters). -/
structure MockPin where
  mode : Nat
  pud : Nat
  value : Int
  edgeDetect : Option Nat
  eventCallbacks : Nat
deriving DecidableEq, Repr

/-- A fresh `_MockPin(pin)` with the constructor defaults
(`mode=IN, pull_up_down=PUD_OFF, initial=LOW`). -/
def MockPin.default : MockPin :=
  { mode := IN, pud := PUD_OFF, value := LOW, edgeDetect := none, eventCallbacks := 0 }

/-- The mock driver's module-level `_pins` dict. -/
structure DriverState where
  pins : List (Nat × MockPin)
deriving DecidableEq, Repr

/-- `_rpi3B_pins`: the channels the mock driver starts with. -/
def rpi3BPins : List Nat := [2, 3, 4, 7, 8, 9, 10, 11, 14, 15, 17, 18, 22, 23, 24, 25, 27]

/-- `_pins = {pin: _MockPin(pin) for pin in _rpi3B_pins}` -/
def DriverState.initial : DriverState :=
  { pins := rpi3BPins.map (fun p => (p, MockPin.default)) }

/-- `mock_gpio.gpio_function(channel)`: mode of the channel, or
`ValueError` if the channel is not set up. -/
def driverGpioFunction (d : DriverState) (channel : Nat) : Except GPIOError Nat :=
  match alGet d.pins channel with
  | none => .error .invalidArgument
  | some p => .ok p.mode

/-- `mock_gpio.setup(channel, direction, pull_up_down, initial)`: installs a
fresh `_MockPin`; `initial if initial != -1 else LOW`. -/
def driverSetup (d : DriverState) (channel : Nat) (direction : Nat) (pud : Nat)
    (initial : Int) : DriverState :=
  { pins := alSet d.pins channel
      { mode := direction, pud := pud,
        value := if initial ≠ -1 then initial else LOW,
        edgeDetect := none, eventCallbacks := 0 } }

/-- `mock_gpio.cleanup()` with no channel: `_pins.clear()`. -/
def driverCleanupAll (_d : DriverState) : DriverState := { pins := [] }

/-- `mock_gpio.input(channel)`: `RuntimeError` when the channel is not set
up or not an input; otherwise `bool(value)`. -/
def driverInput (d : DriverState) (channel : Nat) : Except GPIOError Bool :=
  match alGet d.pins channel with
  | none => .error .runtimeError
  | some p =>
    if p.mode == IN then .ok (p.value ≠ 0) else .error .runtimeError

/-- `mock_gpio.output(channel, value)` for a single channel:
`RuntimeError` when not set up or not an output; otherwise stores
`1 if val else 0`. -/
def driverOutput (d : DriverState) (channel : Nat) (val : Bool) :
    Except GPIOError DriverState :=
  match alGet d.pins channel with
  | none => .error .runtimeError
  | some p =>
    if p.mode == OUT then
      .ok { pins := alSet d.pins channel { p with value := if val then 1 else 0 } }
    else .error .runtimeError

/-- `mock_gpio.add_event_detect(channel, edge, callback, bouncetime)`:
`RuntimeError` when the channel is not set up; records the edge and, when a
callback is given, appends it. -/
def driverAddEventDetect (d : DriverState) (channel : Nat) (edge : Nat)
    (callbackSupplied : Bool) : Except GPIOError DriverState :=
  match alGet d.pins channel with
  | none => .error .runtimeError
  | some p =>
    let p' := { p with edgeDetect := some edge,
                       eventCallbacks := p.eventCallbacks + (if callbackSupplied then 1 else 0) }
    .ok { pins := alSet d.pins channel p' }

/-! ## Hardware adapter (`hardware.py`, class `GPIOHardware`) -/

/-- State of the `GPIOHardware` singleton.  `discoveryRuns` is a ghost
counter incremented exactly when the discovery loop over the driver's
`gpio_function` runs; it does not influence any behavior. -/
structure HWState where
  driver : DriverState
  validPins : Option (List Nat)
  discoveryRuns : Nat
  initialized : Bool
deriving DecidableEq, Repr

/-- The adapter right after `GPIOHardware.__init__` on the mock driver:
`_valid_pins = None`, driver in its module-initial state. -/
def HWState.initial : HWState :=
  { driver := DriverState.initial, validPins := none, discoveryRuns := 0, initialized := true }

/-- The body of the discovery loop in `get_valid_pins`: all channels in
`range(100)` whose `gpio_function` succeeds with a mode in `[IN, OUT]`. -/
def discoveredPins (d : DriverState) : List Nat :=
  (List.range 100).filter (fun pin =>
    match driverGpioFunction d pin with
    | .ok m => m == IN || m == OUT
    | .error _ => false)

/-- `GPIOHardware.get_valid_pins`: returns the cached `_valid_pins` when
present; otherwise runs the discovery loop, raises
`RuntimeError("No valid pins found")` when it finds nothing, and caches
`sorted(valid_pins)`. -/
def hwGetValidPins (hw : HWState) : Except GPIOError (List Nat) × HWState :=
  match hw.validPins with
  | some vp => (.ok vp, hw)
  | none =>
    let vp := discoveredPins hw.driver
    if vp.isEmpty then (.error .noValidPins, hw)
    else
      let sortedVp := vp.insertionSort (· ≤ ·)
      (.ok sortedVp,
       { hw with validPins := some sortedVp, discoveryRuns := hw.discoveryRuns + 1 })

/-- `GPIOHardware.setup_input_pin(pin, pull_up_down, edge_detection,
bouncetime, callback)`.  Faithful order: the pull-up/down validation comes
first, then `gpio.setup` (which mutates the driver), then the
callback/edge-detection pairing check (`ValueError` — note the driver is
already mutated at that point), then `add_event_detect` when edge detection
was requested (its `RuntimeError` is re-raised as `RuntimeError`). -/
def hwSetupInputPin (hw : HWState) (pin : Nat) (pud : Nat) (edgeDetection : Bool)
    (callbackSupplied : Bool) : Except GPIOError Unit × HWState × List Event :=
  let ev := Event.hwSetupInput pin edgeDetection callbackSupplied
  if ¬(pud = PUD_OFF ∨ pud = PUD_UP ∨ pud = PUD_DOWN) then
    (.error .invalidArgument, hw, [ev])
  else
    let hw1 := { hw with driver := driverSetup hw.driver pin IN pud (-1) }
    if (edgeDetection ∧ ¬callbackSupplied) ∨ (¬edgeDetection ∧ callbackSupplied) then
      (.error .invalidArgument, hw1, [ev])
    else if edgeDetection then
      match driverAddEventDetect hw1.driver pin BOTH callbackSupplied with
      | .error _ => (.error .runtimeError, hw1, [ev])
      | .ok d2 => (.ok (), { hw1 with driver := d2 }, [ev])
    else
      (.ok (), hw1, [ev])

/-- `GPIOHardware.setup_output_pin(pin, initial_state)`: rejects an initial
state other than `UNDEFINED`, `HIGH`, `LOW`; otherwise
`gpio.setup(pin, OUT, pull_up_down=PUD_OFF, initial=initial_state)`. -/
def hwSetupOutputPin (hw : HWState) (pin : Nat) (initialState : Int) :
    Except GPIOError Unit × HWState × List Event :=
  let ev := Event.hwSetupOutput pin initialState
  if initialState ≠ UNDEFINED ∧ initialState ≠ HIGH ∧ initialState ≠ LOW then
    (.error .invalidArgument, hw, [ev])
  else
    (.ok (), { hw with driver := driverSetup hw.driver pin OUT PUD_OFF initialState }, [ev])

/-- `GPIOHardware.get_pin_state(pin)`: `ValueError` when the pin is not in
`get_valid_pins()` (which may itself rediscover and cache), otherwise
`HIGH if gpio.input(pin) else LOW`. -/
def hwGetPinState (hw : HWState) (pin : Nat) : Except GPIOError Int × HWState × List Event :=
  let ev := Event.hwRead pin
  let r := hwGetValidPins hw
  match r.1 with
  | .error e => (.error e, r.2, [ev])
  | .ok vp =>
    if pin ∈ vp then
      match driverInput r.2.driver pin with
      | .error e => (.error e, r.2, [ev])
      | .ok b => (.ok (if b then HIGH else LOW), r.2, [ev])
    else (.error .invalidArgument, r.2, [ev])

/-- `GPIOHardware.set_output_state(pin, state)`: `ValueError` when the pin
is not in `get_valid_pins()` or the state is not `HIGH`/`LOW`; otherwise
`gpio.output(pin, bool(state))`. -/
def hwSetOutputState (hw : HWState) (pin : Nat) (state : Int) :
    Except GPIOError Unit × HWState × List Event :=
  let ev := Event.hwWrite pin state
  let r := hwGetValidPins hw
  match r.1 with
  | .error e => (.error e, r.2, [ev])
  | .ok vp =>
    if pin ∈ vp then
      if state ≠ HIGH ∧ state ≠ LOW then (.error .invalidArgument, r.2, [ev])
      else
        match driverOutput r.2.driver pin (state ≠ 0) with
        | .error e => (.error e, r.2, [ev])
        | .ok d2 => (.ok (), { r.2 with driver := d2 }, [ev])
    else (.error .invalidArgument, r.2, [ev])

/-- `GPIOHardware.cleanup()` (no arguments): `gpio.cleanup()` on the whole
driver, then `_initialized = False` and `_valid_pins = None`. -/
def hwCleanup (hw : HWState) : HWState × List Event :=
  ({ hw with driver := driverCleanupAll hw.driver, initialized := false, validPins := none },
   [Event.hwTeardown])

/-- The call `HW.cleanup(pin=pin)` made by `GPIOManager.clear_pin`
(manager.py line 214).  `GPIOHardware.cleanup` (hardware.py line 173) is
declared `def cleanup(self) -> None` and accepts no `pin` parameter, so
Python raises `TypeError: cleanup() got an unexpected keyword argument
'pin'` before the method body runs; the adapter state is untouched. -/
def hwCleanupKwPin (hw : HWState) (_pin : Nat) : Except GPIOError Unit × HWState × List Event :=
  (.error .typeError, hw, [])

/-- Modelled from the spec: the `PWMInfo` container imported by
`manager.py` from `.hardware` is absent from the sources (only its uses in
`manager.py` are present).  Spec §3: a PWM channel holds its `pin`,
`frequency` and `duty_cycle`; the duty cycle starts unset
(`duty_cycle: float|None` per `get_pwm_pin_info`). -/
structure PWMInfo where
  pin : Nat
  frequency : Nat
  dutyCycle : Option ℚ
deriving DecidableEq, Repr

/-- Modelled from the spec: `HW.pwm(pin, frequency)` called by
`GPIOManager.setup_pwm` is absent from `hardware.py`.  Per the spec (§4.1,
§4.2) and the mock driver's `PWM.__init__`, it wraps the driver PWM
constructor, which raises when the channel is not set up, and yields the
channel's `PWMInfo`. -/
def hwPwm (hw : HWState) (pin : Nat) (frequency : Nat) : Except GPIOError PWMInfo :=
  if alContains hw.driver.pins pin then
    .ok { pin := pin, frequency := frequency, dutyCycle := none }
  else .error .runtimeError

/-! ## GPIO Manager (`manager.py`, class `GPIOManager`) -/

/-- A user callback function: identified by the identity of its function
object; `raises` says whether invoking it raises an exception. -/
structure CB where
  id : Nat
  raises : Bool
deriving DecidableEq, Repr

/-- `CallbackInfo(on_change, on_clear)` from manager.py. -/
structure CallbackInfo where
  on_change : CB
  on_clear : Option CB
deriving DecidableEq, Repr

/-- `self._pin_callbacks[pin].add(cb)`: Python `set.add`, no duplicate
entries (`CallbackInfo` is a NamedTuple of function objects, equal iff the
functions are identical). -/
def cbAdd (l : List CallbackInfo) (cb : CallbackInfo) : List CallbackInfo :=
  if cb ∈ l then l else l ++ [cb]

/-- The mutable fields of the `GPIOManager` instance. -/
structure MgrState where
  pinModes : List (Nat × Option Nat)
  outputPinStates : List (Nat × Int)
  pinCallbacks : List (Nat × List CallbackInfo)
  pwmPins : List (Nat × PWMInfo)
deriving DecidableEq, Repr

/-- The object `__new__` allocates before `__init__` fills it. -/
def blankMgr : MgrState :=
  { pinModes := [], outputPinStates := [], pinCallbacks := [], pwmPins := [] }

instance {ε α : Type} [DecidableEq ε] [DecidableEq α] : DecidableEq (Except ε α) := fun a b =>
  match a, b with
  | .error e, .error f =>
    if h : e = f then isTrue (by rw [h]) else isFalse (fun c => by cases c; exact h rfl)
  | .ok x, .ok y =>
    if h : x = y then isTrue (by rw [h]) else isFalse (fun c => by cases c; exact h rfl)
  | .error _, .ok _ => isFalse (fun c => by cases c)
  | .ok _, .error _ => isFalse (fun c => by cases c)

/-- Result of a state-mutating manager call: outcome, manager and adapter
state after the call (Python does not roll back on raise), event trace. -/
structure StepResult where
  res : Except GPIOError Unit
  mgr : MgrState
  hw : HWState
  trace : List Event
deriving DecidableEq, Repr

/-- Result of `get_pin_state` (never mutates the manager). -/
structure GetResult where
  res : Except GPIOError Int
  hw : HWState
  trace : List Event
deriving DecidableEq, Repr

/-- `GPIOManager.get_pin_state(pin)`: `UNDEFINED` when the pin is not in
`get_valid_pins()` (whose own failure propagates uncaught) or unconfigured;
the manager-side cache for Output pins (`UNDEFINED` when the cache has no
entry); a live adapter read for Input pins with any read failure converted
to `UNDEFINED`; `UNDEFINED` for any other mode. -/
def get_pin_state (mgr : MgrState) (hw : HWState) (pin : Nat) : GetResult :=
  let r := hwGetValidPins hw
  match r.1 with
  | .error e => { res := .error e, hw := r.2, trace := [] }
  | .ok vp =>
    if pin ∈ vp then
      match (alGet mgr.pinModes pin).join with
      | none => { res := .ok UNDEFINED, hw := r.2, trace := [] }
      | some mode =>
        if mode == OUT then
          match alGet mgr.outputPinStates pin with
          | none => { res := .ok UNDEFINED, hw := r.2, trace := [] }
          | some s => { res := .ok s, hw := r.2, trace := [] }
        else if mode == IN then
          let rr := hwGetPinState r.2 pin
          match rr.1 with
          | .ok s => { res := .ok s, hw := rr.2.1, trace := rr.2.2 }
          | .error _ => { res := .ok UNDEFINED, hw := rr.2.1, trace := rr.2.2 }
        else { res := .ok UNDEFINED, hw := r.2, trace := [] }
    else { res := .ok UNDEFINED, hw := r.2, trace := [] }

/-- The `if callback:` registration step shared by both branches of
`configure_pin`: `self._pin_callbacks[pin].add(CallbackInfo(...))`, a raw
dict subscript that raises `KeyError` when the pin has no entry. -/
def addCallbackStep (mgr : MgrState) (pin : Nat) (callback : Option CB)
    (on_clear : Option CB) : Except GPIOError MgrState :=
  match callback with
  | none => .ok mgr
  | some cb =>
    match alGet mgr.pinCallbacks pin with
    | none => .error .keyError
    | some cbs =>
      let cbs' := cbAdd cbs { on_change := cb, on_clear := on_clear }
      .ok { mgr with pinCallbacks := alSet mgr.pinCallbacks pin cbs' }

/-- The trailing "Trigger initial callback if provided" block of
`configure_pin`: calls `callback(pin, self.get_pin_state(pin))` inside
`try/except`, so both a raising callback and a raising `get_pin_state`
are swallowed. -/
def initialCallback (mgr : MgrState) (hw : HWState) (trace : List Event) (pin : Nat)
    (callback : Option CB) : StepResult :=
  match callback with
  | none => { res := .ok (), mgr := mgr, hw := hw, trace := trace }
  | some cb =>
    let g := get_pin_state mgr hw pin
    match g.res with
    | .ok st =>
      { res := .ok (), mgr := mgr, hw := g.hw, trace := trace ++ g.trace ++ [.onChange cb.id pin st] }
    | .error _ =>
      { res := .ok (), mgr := mgr, hw := g.hw, trace := trace ++ g.trace }

/-- `GPIOManager.configure_pin(pin, mode, callback, on_clear)`.
Raises `RuntimeError` when the pin already has a mode.  For `IN`: always
calls `HW.setup_input_pin(pin, edge_detection=True, callback=input_callback)`
with the manager's dispatch wrapper, then records the mode and registers
the user callback (any exception in the block, including the `KeyError`
from an uninitialized callback entry, is re-raised as
`RuntimeError("Hardware configuration failed")`).  For `OUT`: calls
`HW.setup_output_pin(pin, initial_state=HIGH)`, records the mode, seeds the
output cache to `HIGH`, registers the callback.  Any other mode configures
nothing.  Finally the initial callback fires when one was provided. -/
def configure_pin (mgr : MgrState) (hw : HWState) (pin : Nat) (mode : Nat)
    (callback : Option CB) (on_clear : Option CB) : StepResult :=
  match (alGet mgr.pinModes pin).join with
  | some _ => { res := .error .alreadyConfigured, mgr := mgr, hw := hw, trace := [] }
  | none =>
    if mode == IN then
      match hwSetupInputPin hw pin PUD_OFF true true with
      | (.error _, hw1, evs) => { res := .error .hardwareError, mgr := mgr, hw := hw1, trace := evs }
      | (.ok _, hw1, evs) =>
        let mgr1 := { mgr with pinModes := alSet mgr.pinModes pin (some IN) }
        match addCallbackStep mgr1 pin callback on_clear with
        | .error _ => { res := .error .hardwareError, mgr := mgr1, hw := hw1, trace := evs }
        | .ok mgr2 => initialCallback mgr2 hw1 evs pin callback
    else if mode == OUT then
      match hwSetupOutputPin hw pin HIGH with
      | (.error _, hw1, evs) => { res := .error .hardwareError, mgr := mgr, hw := hw1, trace := evs }
      | (.ok _, hw1, evs) =>
        let mgr1 := { mgr with pinModes := alSet mgr.pinModes pin (some OUT) }
        let mgr2 := { mgr1 with outputPinStates := alSet mgr1.outputPinStates pin HIGH }
        let evs2 := evs ++ [.cacheUpdate pin HIGH]
        match addCallbackStep mgr2 pin callback on_clear with
        | .error _ => { res := .error .hardwareError, mgr := mgr2, hw := hw1, trace := evs2 }
        | .ok mgr3 => initialCallback mgr3 hw1 evs2 pin callback
    else
      initialCallback mgr hw [] pin callback

/-- `GPIOManager.watch_pin(pin, callback, on_clear)`: warns (log only) when
the pin is unconfigured, raises `ValueError` for a pin outside
`get_valid_pins()`, adds the callback to the pin's set (raw subscript:
`KeyError` when the entry is missing), then fires the initial callback
inside `try/except`. -/
def watch_pin (mgr : MgrState) (hw : HWState) (pin : Nat) (cb : CB) (oc : Option CB) :
    StepResult :=
  let r := hwGetValidPins hw
  match r.1 with
  | .error e => { res := .error e, mgr := mgr, hw := r.2, trace := [] }
  | .ok vp =>
    if pin ∈ vp then
      match alGet mgr.pinCallbacks pin with
      | none => { res := .error .keyError, mgr := mgr, hw := r.2, trace := [] }
      | some cbs =>
        let cbs' := cbAdd cbs { on_change := cb, on_clear := oc }
        let mgr1 := { mgr with pinCallbacks := alSet mgr.pinCallbacks pin cbs' }
        let g := get_pin_state mgr1 r.2 pin
        match g.res with
        | .ok st =>
          { res := .ok (), mgr := mgr1, hw := g.hw, trace := g.trace ++ [.onChange cb.id pin st] }
        | .error _ => { res := .ok (), mgr := mgr1, hw := g.hw, trace := g.trace }
    else { res := .error .invalidArgument, mgr := mgr, hw := r.2, trace := [] }

/-- `GPIOManager.set_pin_state(pin, state)`.  Checks in source order:
unconfigured → `RuntimeError`; mode outside `[IN, OUT]` → `ValueError`;
mode ≠ `OUT` → `ValueError`.  Then inside `try`: adapter write, cache
update, callback dispatch (each callback individually wrapped, so a raising
callback is logged and skipped); an adapter failure — and the `KeyError`
from a missing callback entry — surface as
`RuntimeError("Failed to set pin state")`, with the cache untouched in the
adapter-failure case because the write precedes the cache assignment. -/
def set_pin_state (mgr : MgrState) (hw : HWState) (pin : Nat) (state : Int) : StepResult :=
  match (alGet mgr.pinModes pin).join with
  | none => { res := .error .notConfigured, mgr := mgr, hw := hw, trace := [] }
  | some mode =>
    if mode ≠ IN ∧ mode ≠ OUT then
      { res := .error .notInputOutput, mgr := mgr, hw := hw, trace := [] }
    else if mode ≠ OUT then
      { res := .error .notOutput, mgr := mgr, hw := hw, trace := [] }
    else
      match hwSetOutputState hw pin state with
      | (.error _, hw1, evs) => { res := .error .hardwareError, mgr := mgr, hw := hw1, trace := evs }
      | (.ok _, hw1, evs) =>
        let mgr1 := { mgr with outputPinStates := alSet mgr.outputPinStates pin state }
        match alGet mgr.pinCallbacks pin with
        | none =>
          { res := .error .hardwareError, mgr := mgr1, hw := hw1,
            trace := evs ++ [.cacheUpdate pin state] }
        | some cbs =>
          { res := .ok (), mgr := mgr1, hw := hw1,
            trace := evs ++ [.cacheUpdate pin state]
                     ++ cbs.map (fun c => .onChange c.on_change.id pin state) }

/-- One `on_clear` firing inside `clear_pin`/`cleanup`: evaluates
`self.get_pin_state(pin)` and calls `callback_info.on_clear` with it, the
whole call wrapped in `try/except` (so a raising `get_pin_state` fires no
callback and a raising callback is logged; both continue the loop). -/
def fireOnClear (mgr : MgrState) (pin : Nat) (acc : HWState × List Event)
    (cbi : CallbackInfo) : HWState × List Event :=
  match cbi.on_clear with
  | none => acc
  | some oc =>
    let g := get_pin_state mgr acc.1 pin
    match g.res with
    | .ok st => (g.hw, acc.2 ++ g.trace ++ [.onClear oc.id pin st])
    | .error _ => (g.hw, acc.2 ++ g.trace)

/-- `GPIOManager.clear_pin(pin)`: `ValueError` for a pin outside
`get_valid_pins()`; fires every `on_clear` registered on the pin (the raw
subscript `self._pin_callbacks[pin]` raises `KeyError` when absent); clears
the pin's callback set, pops the cached output state, sets the mode entry
to `None`; finally calls `HW.cleanup(pin=pin)` — which raises `TypeError`
(no such parameter) — and re-raises it as
`RuntimeError("Hardware cleanup failed")`. -/
def clear_pin (mgr : MgrState) (hw : HWState) (pin : Nat) : StepResult :=
  let r := hwGetValidPins hw
  match r.1 with
  | .error e => { res := .error e, mgr := mgr, hw := r.2, trace := [] }
  | .ok vp =>
    if pin ∈ vp then
      match alGet mgr.pinCallbacks pin with
      | none => { res := .error .keyError, mgr := mgr, hw := r.2, trace := [] }
      | some cbs =>
        let fired := cbs.foldl (fireOnClear mgr pin) (r.2, [])
        let mgr1 := { mgr with pinCallbacks := alSet mgr.pinCallbacks pin [] }
        let mgr2 := { mgr1 with outputPinStates := alErase mgr1.outputPinStates pin }
        let mgr3 := { mgr2 with pinModes := alSet mgr2.pinModes pin none }
        match hwCleanupKwPin fired.1 pin with
        | (.error _, hw2, evs2) =>
          { res := .error .runtimeError, mgr := mgr3, hw := hw2, trace := fired.2 ++ evs2 }
        | (.ok _, hw2, evs2) =>
          { res := .ok (), mgr := mgr3, hw := hw2, trace := fired.2 ++ evs2 }
    else { res := .error .invalidArgument, mgr := mgr, hw := r.2, trace := [] }

/-- `GPIOManager.remove_pwm(pin)`: returns silently when the pin has no PWM
entry; otherwise stops the PWM (a driver no-op in the mock) and deletes the
entry. -/
def remove_pwm (mgr : MgrState) (pin : Nat) : MgrState :=
  if alContains mgr.pwmPins pin then { mgr with pwmPins := alErase mgr.pwmPins pin }
  else mgr

/-- The list comprehension `[self.remove_pwm(pin) for pin in self._pwm_pins]`
in `cleanup`.  CPython dict iterators remember the dict's size when
created and raise `RuntimeError("dictionary changed size during iteration")`
at the first `next()` after the size changed — including the final
`next()` that would otherwise raise `StopIteration`. -/
def pwmRemovalLoop (size0 : Nat) (keys : List Nat) (mgr : MgrState) :
    Option GPIOError × MgrState :=
  match keys with
  | [] => if mgr.pwmPins.length ≠ size0 then (some .runtimeError, mgr) else (none, mgr)
  | k :: ks =>
    if mgr.pwmPins.length ≠ size0 then (some .runtimeError, mgr)
    else pwmRemovalLoop size0 ks (remove_pwm mgr k)

/-- `GPIOManager.setup_pwm(pin, frequency)`: `ValueError` for an invalid,
unconfigured or non-Output pin; shared-generator and software-PWM cases
only log warnings; then `HW.pwm` creates the channel (failure re-raised as
`RuntimeError`). -/
def setup_pwm (mgr : MgrState) (hw : HWState) (pin : Nat) (frequency : Nat) : StepResult :=
  let r := hwGetValidPins hw
  match r.1 with
  | .error e => { res := .error e, mgr := mgr, hw := r.2, trace := [] }
  | .ok vp =>
    if pin ∈ vp then
      match (alGet mgr.pinModes pin).join with
      | none => { res := .error .notConfigured, mgr := mgr, hw := r.2, trace := [] }
      | some m =>
        if m ≠ OUT then { res := .error .notOutput, mgr := mgr, hw := r.2, trace := [] }
        else
          match hwPwm r.2 pin frequency with
          | .error _ => { res := .error .hardwareError, mgr := mgr, hw := r.2, trace := [] }
          | .ok info =>
            { res := .ok (), mgr := { mgr with pwmPins := alSet mgr.pwmPins pin info },
              hw := r.2, trace := [] }
    else { res := .error .invalidArgument, mgr := mgr, hw := r.2, trace := [] }

/-- `GPIOManager.cleanup()`: fires `on_clear` for every registration of
every pin (each individually wrapped); `HW.cleanup()`; clears the output
cache, the mode table and the callback registry; then runs the PWM removal
comprehension (whose dict-size `RuntimeError` — like any other exception in
the block — is re-raised as `RuntimeError("Cleanup failed")`, leaving the
partially-emptied PWM table in place) and finally `self._pwm_pins.clear()`. -/
def cleanup (mgr : MgrState) (hw : HWState) : StepResult :=
  let fired := mgr.pinCallbacks.foldl
    (fun acc e => e.2.foldl (fireOnClear mgr e.1) acc) (hw, [])
  let c := hwCleanup fired.1
  let mgr1 := { mgr with outputPinStates := [], pinModes := [], pinCallbacks := [] }
  match pwmRemovalLoop mgr1.pwmPins.length (mgr1.pwmPins.map (·.1)) mgr1 with
  | (some _, mgr2) =>
    { res := .error .runtimeError, mgr := mgr2, hw := c.1, trace := fired.2 ++ c.2 }
  | (none, mgr2) =>
    { res := .ok (), mgr := { mgr2 with pwmPins := [] }, hw := c.1, trace := fired.2 ++ c.2 }

/-! ## Singleton construction (`GPIOManager.__new__` / `__init__`) -/

/-- The `__init__` body (run only on the first construction): discovers the
valid pins, initializes every one as unconfigured with an empty callback
set.  A discovery failure propagates and aborts construction. -/
def managerInitFields (hw : HWState) : Except GPIOError MgrState × HWState :=
  let r := hwGetValidPins hw
  match r.1 with
  | .error e => (.error e, r.2)
  | .ok vp =>
    (.ok { pinModes := vp.foldl (fun m p => alSet m p none) [],
           outputPinStates := [],
           pinCallbacks := vp.foldl (fun m p => alSet m p []) [],
           pwmPins := [] }, r.2)

/-- The class-level singleton state of `GPIOManager`:
`_instance` and `_initialized`. -/
structure ClassState where
  inst : Option MgrState
  initialized : Bool
deriving DecidableEq, Repr

/-- `GPIOManager()`: `__new__` returns the stored class-level instance,
allocating a blank object only when there is none; `__init__` returns
immediately when `_initialized` is already set, otherwise runs the
initialization body and marks the class initialized.  The constructed
instance, the updated class state and adapter state are returned. -/
def constructGPIOManager (cs : ClassState) (hw : HWState) :
    Except GPIOError MgrState × ClassState × HWState :=
  let obj := cs.inst.getD blankMgr
  if cs.initialized then
    (.ok obj, { inst := some obj, initialized := true }, hw)
  else
    match managerInitFields hw with
    | (.error e, hw1) => (.error e, { inst := some obj, initialized := false }, hw1)
    | (.ok mgr, hw1) => (.ok mgr, { inst := some mgr, initialized := true }, hw1)

/-- The process-startup construction `gpio_manager = GPIOManager()` on the
mock driver. -/
def construct0 : Except GPIOError MgrState × ClassState × HWState :=
  constructGPIOManager { inst := none, initialized := false } HWState.initial

/-- Manager state right after startup on the mock driver. -/
def mgr0 : MgrState := (construct0.2.1.inst).getD blankMgr

/-- Adapter state right after startup on the mock driver. -/
def hw0 : HWState := construct0.2.2

/-! ## Concrete scenario states used by the claims -/

/-- The valid pins discovered on the mock driver at startup. -/
def validPinsInit : List Nat := [2, 3, 4, 7, 8, 9, 10, 11, 14, 15, 17, 18, 22, 23, 24, 25, 27]

/-- Configure pin 2 as Input with no user callback. -/
def stepIn2 : StepResult := configure_pin mgr0 hw0 2 IN none none

/-- Configure pin 2 as Output with no user callback. -/
def stepOut2 : StepResult := configure_pin mgr0 hw0 2 OUT none none

/-- First watcher on Output pin 2: callback function 5, which raises when
invoked. -/
def stepWatchA : StepResult :=
  watch_pin stepOut2.mgr stepOut2.hw 2 { id := 5, raises := true } none

/-- Second watcher on Output pin 2: callback function 6. -/
def stepWatchB : StepResult :=
  watch_pin stepWatchA.mgr stepWatchA.hw 2 { id := 6, raises := false } none

/-- Configure pin 18 as Output. -/
def stepOut18 : StepResult := configure_pin mgr0 hw0 18 OUT none none

/-- Configure pin 17 as Output (after pin 18). -/
def stepOut17 : StepResult := configure_pin stepOut18.mgr stepOut18.hw 17 OUT none none

/-- PWM channel on pin 18 at 100 Hz. -/
def stepPwm18 : StepResult := setup_pwm stepOut17.mgr stepOut17.hw 18 100

/-- PWM channel on pin 17 at 50 Hz (second channel). -/
def stepPwm17 : StepResult := setup_pwm stepPwm18.mgr stepPwm18.hw 17 50

/-- Configure pin 2 as Output with callback function 7 and on-clear
function 9. -/
def stepOutCb2 : StepResult :=
  configure_pin mgr0 hw0 2 OUT (some { id := 7, raises := false })
    (some { id := 9, raises := false })

/-- `clear_pin(2)` on that configuration. -/
def stepClear2 : StepResult := clear_pin stepOutCb2.mgr stepOutCb2.hw 2

/-- `cleanup()` on the freshly started manager. -/
def stepCleanup0 : StepResult := cleanup mgr0 hw0

/-- An adapter whose driver has no channels and whose valid-pin cache is
unset (the situation `GPIOHardware.cleanup` leaves behind on the mock). -/
def hwEmptyDriver : HWState :=
  { driver := { pins := [] }, validPins := none, discoveryRuns := 0, initialized := true }

/-! ## Library lemmas about the dict embedding -/

lemma alGet_alSet_self {α : Type} (l : List (Nat × α)) (k : Nat) (v : α) :
    alGet (alSet l k v) k = some v := by
  induction l with
  | nil => simp [alGet, alSet]
  | cons a t ih =>
    by_cases h : a.1 = k
    · simp [alGet, alSet, h]
    · simp [alGet, alSet, h, ih]

lemma alGet_alSet_ne {α : Type} (l : List (Nat × α)) (k k' : Nat) (v : α) (h : k' ≠ k) :
    alGet (alSet l k v) k' = alGet l k' := by
  have hkk : ¬(k = k') := fun hc => h hc.symm
  induction l with
  | nil => simp [alGet, alSet, hkk]
  | cons a t ih =>
    by_cases hk : a.1 = k
    · have hak : ¬(a.1 = k') := fun hc => h ((hk ▸ hc : k = k')).symm
      simp [alGet, alSet, hk, hkk, hak]
    · simp only [alSet, hk, if_false]
      by_cases hk' : a.1 = k'
      · simp [alGet, hk']
      · simp [alGet, hk', ih]

/-! ## Claim C1 -/

/-- C1: for every pin and state, `set_pin_state` fails with NotConfigured
when the pin has no mode and with WrongMode when the mode is Input (or any
non-Output mode), in both cases leaving the manager — in particular the
output cache — unchanged and invoking no callback (empty trace); when the
adapter write fails the call surfaces a HardwareError with the manager
unchanged (no partial cache update); and on success the trace is the
adapter write, then the cache update, then one synchronous `on_change` per
registered callback with the new state — the cache update ordered before
every callback invocation. -/
theorem set_pin_state_correct (mgr : MgrState) (hw : HWState) (pin : Nat) (state : Int) :
    ((alGet mgr.pinModes pin).join = none →
      set_pin_state mgr hw pin state = ⟨.error .notConfigured, mgr, hw, []⟩) ∧
    ((alGet mgr.pinModes pin).join = some IN →
      set_pin_state mgr hw pin state = ⟨.error .notOutput, mgr, hw, []⟩) ∧
    (∀ m, (alGet mgr.pinModes pin).join = some m → m ≠ IN → m ≠ OUT →
      set_pin_state mgr hw pin state = ⟨.error .notInputOutput, mgr, hw, []⟩) ∧
    (∀ e hw' evs, (alGet mgr.pinModes pin).join = some OUT →
      hwSetOutputState hw pin state = (.error e, hw', evs) →
      set_pin_state mgr hw pin state = ⟨.error .hardwareError, mgr, hw', evs⟩) ∧
    (∀ hw' evs cbs, (alGet mgr.pinModes pin).join = some OUT →
      hwSetOutputState hw pin state = (.ok (), hw', evs) →
      alGet mgr.pinCallbacks pin = some cbs →
      set_pin_state mgr hw pin state =
        ⟨.ok (), { mgr with outputPinStates := alSet mgr.outputPinStates pin state }, hw',
          evs ++ [.cacheUpdate pin state]
            ++ cbs.map (fun c => Event.onChange c.on_change.id pin state)⟩) := by
  refine ⟨?_, ?_, ?_, ?_, ?_⟩
  · intro h; simp only [set_pin_state]; rw [h]
  · intro h; simp only [set_pin_state]; rw [h]; simp [IN, OUT]
  · intro m h hIn hOut
    simp only [set_pin_state]; rw [h]
    exact if_pos ⟨hIn, hOut⟩
  · intro e hw' evs h hwe
    simp only [set_pin_state]; rw [h]; simp [IN, OUT, hwe]
  · intro hw' evs cbs h hwe hcb
    simp only [set_pin_state]; rw [h]; simp [IN, OUT, hwe, hcb]

/-- Witness for C1 at concrete inputs: pin 2 unconfigured (NotConfigured),
pin 2 as Input (WrongMode), and a successful write of LOW to pin 2 as
Output with an empty callback set. -/
theorem set_pin_state_correct_witness :
    set_pin_state mgr0 hw0 2 HIGH = ⟨.error .notConfigured, mgr0, hw0, []⟩ ∧
    set_pin_state stepIn2.mgr stepIn2.hw 2 HIGH =
      ⟨.error .notOutput, stepIn2.mgr, stepIn2.hw, []⟩ ∧
    set_pin_state stepOut2.mgr stepOut2.hw 2 LOW =
      ⟨.ok (),
        { stepOut2.mgr with outputPinStates := alSet stepOut2.mgr.outputPinStates 2 LOW },
        (hwSetOutputState stepOut2.hw 2 LOW).2.1,
        (hwSetOutputState stepOut2.hw 2 LOW).2.2 ++ [.cacheUpdate 2 LOW]
          ++ ([] : List CallbackInfo).map (fun c => Event.onChange c.on_change.id 2 LOW)⟩ := by
  refine ⟨?_, ?_, ?_⟩
  · exact (set_pin_state_correct mgr0 hw0 2 HIGH).1 (by decide)
  · exact (set_pin_state_correct stepIn2.mgr stepIn2.hw 2 HIGH).2.1 (by decide)
  · exact (set_pin_state_correct stepOut2.mgr stepOut2.hw 2 LOW).2.2.2.2
      (hwSetOutputState stepOut2.hw 2 LOW).2.1 (hwSetOutputState stepOut2.hw 2 LOW).2.2 []
      (by decide) (by decide) (by decide)

/-! ## Claim C2 -/

/-- C2 counterexample: pin 2 is successfully configured as Input; calling
`configure_pin(2, OUT)` again does not succeed-with-a-warning — it fails
with the already-configured `RuntimeError` and changes nothing. -/
theorem reconfigure_counterexample :
    stepIn2.res = .ok () ∧
    configure_pin stepIn2.mgr stepIn2.hw 2 OUT none none =
      ⟨.error .alreadyConfigured, stepIn2.mgr, stepIn2.hw, []⟩ := by decide

/-- C2 amended: for every pin that already has a mode, `configure_pin`
(with any mode and callbacks) is rejected with the already-configured
`RuntimeError`, leaving the configuration, cache and callbacks unchanged
and firing no callback; an explicit `clear_pin` is required first. -/
theorem configure_pin_rejects_reconfiguration (mgr : MgrState) (hw : HWState)
    (pin mode m : Nat) (cb oc : Option CB)
    (h : (alGet mgr.pinModes pin).join = some m) :
    configure_pin mgr hw pin mode cb oc = ⟨.error .alreadyConfigured, mgr, hw, []⟩ := by
  simp only [configure_pin]; rw [h]

/-- Witness for C2's amended theorem: reconfiguring Input pin 2 as Output. -/
theorem configure_pin_rejects_reconfiguration_witness :
    configure_pin stepIn2.mgr stepIn2.hw 2 IN none none =
      ⟨.error .alreadyConfigured, stepIn2.mgr, stepIn2.hw, []⟩ :=
  configure_pin_rejects_reconfiguration stepIn2.mgr stepIn2.hw 2 IN IN none none (by decide)

/-! ## Claim C3 -/

/-- C3: for every pin in the valid-pin set (the adapter's cached discovery
result), a `configure_pin(pin, OUT)` on an unconfigured pin succeeds, seeds
the output cache to HIGH, and the following `get_pin_state` returns HIGH
from the cache with an empty trace — in particular without any adapter
read. -/
theorem configure_output_then_read_high (mgr : MgrState) (hw : HWState) (pin : Nat)
    (vp : List Nat) (hvp : hw.validPins = some vp) (hmem : pin ∈ vp)
    (hun : (alGet mgr.pinModes pin).join = none) :
    ∃ mgr' hw' evs,
      configure_pin mgr hw pin OUT none none = ⟨.ok (), mgr', hw', evs⟩ ∧
      alGet mgr'.outputPinStates pin = some HIGH ∧
      get_pin_state mgr' hw' pin = ⟨.ok HIGH, hw', []⟩ ∧
      ∀ e ∈ (get_pin_state mgr' hw' pin).trace, e ≠ Event.hwRead pin := by
  refine ⟨{ mgr with pinModes := alSet mgr.pinModes pin (some OUT), outputPinStates := alSet mgr.outputPinStates pin HIGH }, { hw with driver := driverSetup hw.driver pin OUT PUD_OFF HIGH }, [.hwSetupOutput pin HIGH, .cacheUpdate pin HIGH], ?_, ?_, ?_, ?_⟩
  · simp only [configure_pin]; rw [hun]
    simp [IN, OUT, hwSetupOutputPin, HIGH, LOW, UNDEFINED, addCallbackStep, initialCallback]
  · exact alGet_alSet_self mgr.outputPinStates pin HIGH
  · simp only [get_pin_state, hwGetValidPins]
    rw [show ({ hw with driver := driverSetup hw.driver pin OUT PUD_OFF HIGH } : HWState).validPins
          = some vp from hvp]
    simp [hmem, alGet_alSet_self, OUT, IN]
  · simp only [get_pin_state, hwGetValidPins]
    rw [show ({ hw with driver := driverSetup hw.driver pin OUT PUD_OFF HIGH } : HWState).validPins
          = some vp from hvp]
    simp [hmem, alGet_alSet_self, OUT, IN]

/-- Witness for C3: pin 2 on the freshly started manager. -/
theorem configure_output_then_read_high_witness :
    ∃ mgr' hw' evs,
      configure_pin mgr0 hw0 2 OUT none none = ⟨.ok (), mgr', hw', evs⟩ ∧
      alGet mgr'.outputPinStates 2 = some HIGH ∧
      get_pin_state mgr' hw' 2 = ⟨.ok HIGH, hw', []⟩ ∧
      ∀ e ∈ (get_pin_state mgr' hw' 2).trace, e ≠ Event.hwRead 2 :=
  configure_output_then_read_high mgr0 hw0 2 validPinsInit (by decide) (by decide) (by decide)

/-! ## Claim C4 -/

/-- C4: `get_pin_state` does not always return a value.  After a successful
`cleanup()` (which resets the adapter's valid-pin cache and empties the
mock driver), `get_pin_state(2)` re-runs pin discovery, which raises
`RuntimeError("No valid pins found")` uncaught — instead of the
`UNDEFINED` the claim (and the method's own docstring, "UNDEFINED if ...
any other error occurs") promise. -/
theorem get_pin_state_raises_after_cleanup :
    stepCleanup0.res = .ok () ∧
    (get_pin_state stepCleanup0.mgr stepCleanup0.hw 2).res = .error .noValidPins := by decide

/-! ## Claim C5 -/

/-- C5 counterexample: configuring pin 2 as Input with **no** callback
still calls the adapter's `setup_input_pin` with `edge_detection=True` and
a (manager-created) callback — not with `edge_detection = callback.is_some()
= False` and no callback as the claim states. -/
theorem input_edge_detection_counterexample :
    stepIn2.trace = [Event.hwSetupInput 2 true true] ∧
    stepIn2.trace ≠ [Event.hwSetupInput 2 false false] := by decide

/-- C5 amended: for every unconfigured pin, `configure_pin(pin, IN, cb)`
always delegates to the adapter with `edge_detection=True` and a supplied
(dispatch-wrapper) callback — independently of whether a user callback was
given — and that argument pairing always satisfies the adapter's
edge-detection/callback precondition (the call succeeds rather than
raising `InvalidArgument`). -/
theorem configure_input_always_edge_detection (mgr : MgrState) (hw : HWState) (pin : Nat)
    (cb oc : Option CB) (h : (alGet mgr.pinModes pin).join = none) :
    (∃ rest, (configure_pin mgr hw pin IN cb oc).trace
               = Event.hwSetupInput pin true true :: rest) ∧
    ∃ hw', hwSetupInputPin hw pin PUD_OFF true true
             = (.ok (), hw', [Event.hwSetupInput pin true true]) := by
  have hsetup : hwSetupInputPin hw pin PUD_OFF true true
      = (.ok (), { hw with driver := { pins := alSet (alSet hw.driver.pins pin { mode := IN, pud := PUD_OFF, value := LOW, edgeDetect := none, eventCallbacks := 0 }) pin { mode := IN, pud := PUD_OFF, value := LOW, edgeDetect := some BOTH, eventCallbacks := 1 } } }, [Event.hwSetupInput pin true true]) := by
    simp [hwSetupInputPin, driverSetup, driverAddEventDetect, alGet_alSet_self, LOW]
  refine ⟨?_, ⟨_, hsetup⟩⟩
  simp only [configure_pin]; rw [h]
  simp only [IN, OUT, beq_self_eq_true, if_true, hsetup]
  cases hacs : addCallbackStep { mgr with pinModes := alSet mgr.pinModes pin (some 1) } pin cb oc with
  | error e => simp only [hacs]; exact ⟨[], rfl⟩
  | ok mgr2 =>
    cases cb with
    | none => simp only [hacs, initialCallback]; exact ⟨[], rfl⟩
    | some c =>
      simp only [hacs, initialCallback]
      split <;> exact ⟨_, rfl⟩

/-- Witness for C5's amended theorem: pin 2 with a user callback supplied. -/
theorem configure_input_always_edge_detection_witness :
    (∃ rest, (configure_pin mgr0 hw0 2 IN (some { id := 7, raises := false }) none).trace
               = Event.hwSetupInput 2 true true :: rest) ∧
    ∃ hw', hwSetupInputPin hw0 2 PUD_OFF true true
             = (.ok (), hw', [Event.hwSetupInput 2 true true]) :=
  configure_input_always_edge_detection mgr0 hw0 2 (some { id := 7, raises := false }) none
    (by decide)

/-! ## Claim C6 -/

/-- C6: `cleanup()` does not stop-and-remove all PWM channels and finish.
With the two PWM channels of `stepPwm17` (pins 18 and 17), the removal
comprehension deletes dict entries while iterating the dict, so CPython
raises `RuntimeError("dictionary changed size during iteration")`, the
manager re-raises `RuntimeError("Cleanup failed")`, and pin 17's channel
is left in the PWM table — never stopped or removed. -/
theorem cleanup_pwm_dict_mutation :
    stepPwm17.res = .ok () ∧
    stepPwm17.mgr.pwmPins.map (fun p => p.1) = [18, 17] ∧
    (cleanup stepPwm17.mgr stepPwm17.hw).res = .error .runtimeError ∧
    (cleanup stepPwm17.mgr stepPwm17.hw).mgr.pwmPins.map (fun p => p.1) = [17] := by decide

/-! ## Claim C7 -/

/-- C7: `clear_pin(2)` on an Output pin with one registration fires its
`on_clear` exactly once, removes all callbacks, returns the pin to
Unconfigured, and a subsequent `configure_pin` succeeds as on a fresh pin —
but the call itself always raises
`RuntimeError("Hardware cleanup failed: ...")`, because it invokes
`HW.cleanup(pin=pin)` and `GPIOHardware.cleanup` accepts no `pin`
parameter (a `TypeError` caught and re-raised). -/
theorem clear_pin_always_raises :
    stepOutCb2.res = .ok () ∧
    stepClear2.res = .error .runtimeError ∧
    stepClear2.trace = [Event.onClear 9 2 HIGH] ∧
    (alGet stepClear2.mgr.pinModes 2).join = none ∧
    alGet stepClear2.mgr.pinCallbacks 2 = some [] ∧
    (configure_pin stepClear2.mgr stepClear2.hw 2 OUT none none).res = .ok () := by decide

/-! ## Claim C8 -/

/-- C8: the adapter's `get_valid_pins` is idempotent and cached — after one
successful call, a second call returns the identical (sorted) list and the
identical adapter state, and in particular does not re-run the discovery
loop (the ghost `discoveryRuns` counter, incremented exactly when the loop
runs, is unchanged); a discovery run (no cache) yields a sorted list; and
discovery fails with the no-valid-pins `RuntimeError` when no valid pin is
found. -/
theorem get_valid_pins_cached (hw : HWState) :
    (∀ l hw', hwGetValidPins hw = (.ok l, hw') →
      hwGetValidPins hw' = (.ok l, hw') ∧
      (hwGetValidPins hw').2.discoveryRuns = hw'.discoveryRuns) ∧
    (hw.validPins = none → ∀ l hw', hwGetValidPins hw = (.ok l, hw') →
      List.Sorted (· ≤ ·) l) ∧
    (hw.validPins = none → discoveredPins hw.driver = [] →
      hwGetValidPins hw = (.error .noValidPins, hw)) := by
  refine ⟨?_, ?_, ?_⟩
  · intro l hw' hcall
    have hvp : hw'.validPins = some l := by
      cases hc : hw.validPins with
      | some vp =>
        simp only [hwGetValidPins, hc] at hcall
        have h1 := congrArg Prod.fst hcall
        have h2 := congrArg Prod.snd hcall
        simp only at h1 h2
        cases h1
        rw [← h2, hc]
      | none =>
        simp only [hwGetValidPins, hc] at hcall
        by_cases he : (discoveredPins hw.driver).isEmpty
        · rw [if_pos he] at hcall
          exact absurd (congrArg Prod.fst hcall) (by simp)
        · rw [if_neg he] at hcall
          have h1 := congrArg Prod.fst hcall
          have h2 := congrArg Prod.snd hcall
          simp only at h1 h2
          cases h1
          rw [← h2]
    refine ⟨?_, ?_⟩
    · simp [hwGetValidPins, hvp]
    · simp [hwGetValidPins, hvp]
  · intro hnone l hw' hcall
    simp only [hwGetValidPins, hnone] at hcall
    by_cases he : (discoveredPins hw.driver).isEmpty
    · rw [if_pos he] at hcall
      exact absurd (congrArg Prod.fst hcall) (by simp)
    · rw [if_neg he] at hcall
      have h1 := congrArg Prod.fst hcall
      simp only at h1
      cases h1
      exact List.sorted_insertionSort (fun a b => a ≤ b) (discoveredPins hw.driver)
  · intro hnone hemp
    simp [hwGetValidPins, hnone, hemp]

/-- Witness for C8: the startup adapter state (first call discovers and
caches, the second is a pure cache hit) and an adapter over an empty
driver (discovery fails). -/
theorem get_valid_pins_cached_witness :
    (hwGetValidPins (hwGetValidPins HWState.initial).2
       = (.ok validPinsInit, (hwGetValidPins HWState.initial).2) ∧
     (hwGetValidPins (hwGetValidPins HWState.initial).2).2.discoveryRuns
       = (hwGetValidPins HWState.initial).2.discoveryRuns) ∧
    List.Sorted (· ≤ ·) validPinsInit ∧
    hwGetValidPins hwEmptyDriver = (.error .noValidPins, hwEmptyDriver) := by
  refine ⟨?_, ?_, ?_⟩
  · exact (get_valid_pins_cached HWState.initial).1 validPinsInit
      (hwGetValidPins HWState.initial).2 (by decide)
  · exact (get_valid_pins_cached HWState.initial).2.1 rfl validPinsInit
      (hwGetValidPins HWState.initial).2 (by decide)
  · exact (get_valid_pins_cached hwEmptyDriver).2.2 rfl (by decide)

/-! ## Claim C9 -/

/-- C9: with exactly two distinct callbacks registered on an Output pin
(distinct `on_change` function identities; the `raises` flags are
universally quantified, so one callback raising changes nothing), a single
successful `set_pin_state` invokes each callback exactly once with
`(pin, state)`. -/
theorem set_pin_state_two_callbacks (mgr : MgrState) (hw : HWState) (pin : Nat) (state : Int)
    (cb1 cb2 : CallbackInfo) (hw' : HWState)
    (hmode : (alGet mgr.pinModes pin).join = some OUT)
    (hcbs : alGet mgr.pinCallbacks pin = some [cb1, cb2])
    (hne : cb1.on_change.id ≠ cb2.on_change.id)
    (hwrite : hwSetOutputState hw pin state = (.ok (), hw', [Event.hwWrite pin state])) :
    set_pin_state mgr hw pin state =
      ⟨.ok (), { mgr with outputPinStates := alSet mgr.outputPinStates pin state }, hw',
        [Event.hwWrite pin state, .cacheUpdate pin state,
         .onChange cb1.on_change.id pin state, .onChange cb2.on_change.id pin state]⟩ ∧
    (set_pin_state mgr hw pin state).trace.count (.onChange cb1.on_change.id pin state) = 1 ∧
    (set_pin_state mgr hw pin state).trace.count (.onChange cb2.on_change.id pin state) = 1 := by
  have hmain : set_pin_state mgr hw pin state =
      ⟨.ok (), { mgr with outputPinStates := alSet mgr.outputPinStates pin state }, hw',
        [Event.hwWrite pin state, .cacheUpdate pin state,
         .onChange cb1.on_change.id pin state, .onChange cb2.on_change.id pin state]⟩ := by
    simp only [set_pin_state]; rw [hmode]
    simp [IN, OUT, hwrite, hcbs]
  refine ⟨hmain, ?_, ?_⟩
  · rw [hmain]
    simp [List.count_cons, hne, Ne.symm hne]
  · rw [hmain]
    simp [List.count_cons, hne, Ne.symm hne]

/-- Witness for C9: watcher callbacks 5 (which raises) and 6 on Output
pin 2, writing LOW. -/
theorem set_pin_state_two_callbacks_witness :
    set_pin_state stepWatchB.mgr stepWatchB.hw 2 LOW =
      ⟨.ok (), { stepWatchB.mgr with outputPinStates := alSet stepWatchB.mgr.outputPinStates 2 LOW },
        (hwSetOutputState stepWatchB.hw 2 LOW).2.1,
        [Event.hwWrite 2 LOW, .cacheUpdate 2 LOW, .onChange 5 2 LOW, .onChange 6 2 LOW]⟩ ∧
    (set_pin_state stepWatchB.mgr stepWatchB.hw 2 LOW).trace.count (.onChange 5 2 LOW) = 1 ∧
    (set_pin_state stepWatchB.mgr stepWatchB.hw 2 LOW).trace.count (.onChange 6 2 LOW) = 1 :=
  set_pin_state_two_callbacks stepWatchB.mgr stepWatchB.hw 2 LOW
    { on_change := { id := 5, raises := true }, on_clear := none }
    { on_change := { id := 6, raises := false }, on_clear := none }
    (hwSetOutputState stepWatchB.hw 2 LOW).2.1
    (by decide) (by decide) (by decide) (by decide)

/-! ## Claim C10 -/

/-- C10: `GPIOManager` is a process-wide singleton — once the class state
records an initialized instance, every further construction returns that
same instance and leaves the class state, the instance's fields (pin
modes, output cache, callbacks, PWM table) and the adapter untouched; in
particular any construction after a successful first one is a no-op. -/
theorem gpio_manager_singleton (cs : ClassState) (hw : HWState) (m : MgrState) :
    (cs.initialized = true → cs.inst = some m →
      constructGPIOManager cs hw = (.ok m, cs, hw)) ∧
    (∀ mgr cs' hw', cs.initialized = false →
      constructGPIOManager cs hw = (.ok mgr, cs', hw') →
      constructGPIOManager cs' hw' = (.ok mgr, cs', hw')) := by
  constructor
  · intro hinit hinst
    obtain ⟨inst, init⟩ := cs
    simp only at hinit hinst
    subst hinit; subst hinst
    simp [constructGPIOManager]
  · intro mgr cs' hw' hinit hcall
    rcases hmi : managerInitFields hw with ⟨res, hw1⟩
    simp only [constructGPIOManager, hinit, Bool.false_eq_true, if_false, hmi] at hcall
    cases res with
    | error e => simp at hcall
    | ok mgrI =>
      have h1 := congrArg (fun t => t.1) hcall
      have h2 := congrArg (fun t => t.2.1) hcall
      have h3 := congrArg (fun t => t.2.2) hcall
      simp only at h1 h2 h3
      cases h1
      rw [← h2, ← h3]
      simp [constructGPIOManager]

/-- Witness for C10: re-constructing after startup on the mock driver
returns `mgr0` again and changes nothing. -/
theorem gpio_manager_singleton_witness :
    constructGPIOManager { inst := some mgr0, initialized := true } hw0
      = (.ok mgr0, { inst := some mgr0, initialized := true }, hw0) ∧
    constructGPIOManager construct0.2.1 construct0.2.2
      = (.ok mgr0, construct0.2.1, construct0.2.2) := by
  constructor
  · exact (gpio_manager_singleton { inst := some mgr0, initialized := true } hw0 mgr0).1 rfl rfl
  · exact (gpio_manager_singleton { inst := none, initialized := false } HWState.initial mgr0).2
      mgr0 construct0.2.1 construct0.2.2 rfl (by decide)

end Birdbox
